import Mathlib

/-!
# Verification of the pupperv3-mjx reward catalogs

Shallow embedding of the two reward-term catalogs of the repository:
`rewards_test_k.py` (unit-interval convention, namespace `RK`) and
`rewards_test_w.py` (signed-wide convention, namespace `RW`), together with
the brax math helpers the terms call (`math.rotate`, `math.quat_inv`,
`math.normalize` / `safe_norm`).

Floating-point arrays are modelled over ℝ; fixed shapes use `Fin n → ℝ`
(12 actuated joints, 4 feet, 3-vector commands, quaternions as 4-vectors).
`jp.clip(x, lo, hi)` is `clip x lo hi = min (max x lo) hi`.
-/

noncomputable section

abbrev Vec3 := Fin 3 → ℝ
abbrev Vec4 := Fin 4 → ℝ
abbrev Vec12 := Fin 12 → ℝ

/-- The additive guard constant `EPS = 1e-6` shared by both reward modules. -/
def EPS : ℝ := 1 / 1000000

/-- Absolute tolerance of `jp.allclose(x, 0.0)` (numpy default `atol = 1e-8`),
used inside brax `safe_norm`. -/
def ATOL : ℝ := 1 / 100000000

/-- Embeds `jp.clip(x, lo, hi)`. -/
def clip (x lo hi : ℝ) : ℝ := min (max x lo) hi

/-- Embeds `jp.dot` on 3-vectors. -/
def dot3 (u v : Vec3) : ℝ := u 0 * v 0 + u 1 * v 1 + u 2 * v 2

/-- Embeds `jp.cross` on 3-vectors. -/
def cross3 (u v : Vec3) : Vec3 :=
  ![u 1 * v 2 - u 2 * v 1, u 2 * v 0 - u 0 * v 2, u 0 * v 1 - u 1 * v 0]

/-- brax `math.quat_inv`: `q * [1, -1, -1, -1]`. -/
def quat_inv (q : Vec4) : Vec4 := ![q 0, -(q 1), -(q 2), -(q 3)]

/-- The vector part `q[1:]` of a quaternion. -/
def quatVec (q : Vec4) : Vec3 := ![q 1, q 2, q 3]

/-- brax `math.rotate`: with `s = q[0]`, `u = q[1:]`,
`2 (u·v) u + (s² − u·u) v + 2 s (u × v)`. -/
def rotate (v : Vec3) (q : Vec4) : Vec3 := fun i =>
  2 * dot3 (quatVec q) v * quatVec q i
    + (q 0 * q 0 - dot3 (quatVec q) (quatVec q)) * v i
    + 2 * q 0 * cross3 (quatVec q) v i

/-- brax `math.safe_norm` on a 3-vector: the Euclidean norm, snapped to `0`
when `jp.allclose(x, 0.0)` holds, i.e. when every component has magnitude
at most `ATOL`.  `math.normalize(x)[1]` is exactly this value. -/
def safe_norm3 (v : Vec3) : ℝ :=
  if |v 0| ≤ ATOL ∧ |v 1| ≤ ATOL ∧ |v 2| ≤ ATOL then 0
  else Real.sqrt (v 0 ^ 2 + v 1 ^ 2 + v 2 ^ 2)

/-- brax `Motion`, restricted to the base row `[0]` that the terms read:
`xd.vel[0]` and `xd.ang[0]`. -/
structure Motion where
  vel : Vec3
  ang : Vec3

/-- brax `Transform`, restricted to the base row `[0]`: `x.pos[0]`, `x.rot[0]`. -/
structure Transform where
  pos : Vec3
  rot : Vec4

/-- One entry of `pipeline_state.contact`: the geometry-id pair and the
signed penetration distance. -/
structure Contact where
  geom1 : ℤ
  geom2 : ℤ
  dist : ℝ

/-- The slice of `pipeline_state` the catalog reads: site and body positions,
per-body spatial velocity rows, and the contact list. -/
structure PipelineState where
  site_xpos : ℕ → Vec3
  xpos : ℕ → Vec3
  xd_vel : ℕ → Vec3
  xd_ang : ℕ → Vec3
  contact : List Contact

/-- The world up-vector `jp.array([0.0, 0.0, 1.0])`. -/
def worldZ : Vec3 := ![0, 0, 1]

/-- Tracking error of `reward_tracking_orientation` (identical body in both
modules): squared distance between the world up-vector rotated into the body
frame and the desired body-frame up-vector. -/
def orientationTrackError (desired : Vec3) (x : Transform) : ℝ :=
  (rotate worldZ (quat_inv x.rot) 0 - desired 0) ^ 2
    + (rotate worldZ (quat_inv x.rot) 1 - desired 1) ^ 2
    + (rotate worldZ (quat_inv x.rot) 2 - desired 2) ^ 2

/-- Tracking error of `reward_tracking_lin_vel`: squared planar distance
between the command and the base velocity rotated into the body frame. -/
def linVelTrackError (commands : Vec3) (x : Transform) (xd : Motion) : ℝ :=
  (commands 0 - rotate xd.vel (quat_inv x.rot) 0) ^ 2
    + (commands 1 - rotate xd.vel (quat_inv x.rot) 1) ^ 2

/-- Tracking error of `reward_tracking_ang_vel`: squared yaw-rate error. -/
def angVelTrackError (commands : Vec3) (x : Transform) (xd : Motion) : ℝ :=
  (commands 2 - rotate xd.ang (quat_inv x.rot) 2) ^ 2

/-- The contribution of a single contact for one watched id:
`((geom1 == id) | (geom2 == id)) * (dist < 0.0)` as a 0/1 real. -/
def collisionContrib (c : Contact) (id : ℤ) : ℝ :=
  if (c.geom1 = id ∨ c.geom2 = id) ∧ c.dist < 0 then 1 else 0

/-- The accumulated collision count of `reward_geom_collision` before the
final clip: the loop `for id in geom_ids: contact += jp.sum(...)`. -/
def collisionCount (cs : List Contact) (ids : List ℤ) : ℝ :=
  (ids.map (fun id => (cs.map (fun c => collisionContrib c id)).sum)).sum

/-- The slice `joint_angles[1::3]`: the hip-abduction joints in the fixed
12-DOF layout. -/
def abdIdx (i : Fin 4) : Fin 12 := ⟨1 + 3 * i.val, by omega⟩

/-- The 0/1 real value of a boolean jax array entry. -/
def boolVal (b : Bool) : ℝ := if b then 1 else 0

/-- Squared norm of a quaternion; a valid unit-quaternion orientation has
value `1`. -/
def quatNormSq (q : Vec4) : ℝ := q 0 ^ 2 + q 1 ^ 2 + q 2 ^ 2 + q 3 ^ 2

/-- The identity base pose: zero position, identity quaternion. -/
def xId : Transform := ⟨![0, 0, 0], ![1, 0, 0, 0]⟩

/-- The zero base motion. -/
def xdZero : Motion := ⟨![0, 0, 0], ![0, 0, 0]⟩

/-- A pipeline state carrying only a contact list (positions and velocities
zero), as read by `reward_geom_collision`. -/
def psOfContacts (cs : List Contact) : PipelineState :=
  ⟨fun _ => ![0, 0, 0], fun _ => ![0, 0, 0], fun _ => ![0, 0, 0],
    fun _ => ![0, 0, 0], cs⟩

/-! ## Unit-interval catalog (`rewards_test_k.py`) -/

namespace RK

def reward_lin_vel_z (xd : Motion) : ℝ :=
  clip (xd.vel 2 ^ 2 / 4) 0 1

def reward_ang_vel_xy (xd : Motion) : ℝ :=
  clip ((xd.ang 0 ^ 2 + xd.ang 1 ^ 2) / 25) 0 1

def reward_tracking_orientation (desired : Vec3) (x : Transform)
    (tracking_sigma : ℝ) : ℝ :=
  clip (Real.exp (-orientationTrackError desired x / (tracking_sigma + EPS))) 0 1

def reward_orientation (x : Transform) : ℝ :=
  clip ((rotate worldZ x.rot 0 ^ 2 + rotate worldZ x.rot 1 ^ 2) / 2) 0 1

def reward_torques (torques : Vec12) : ℝ :=
  clip ((∑ i, torques i ^ 2) / 1200) 0 1

def reward_joint_acceleration (joint_vel last_joint_vel : Vec12) (dt : ℝ) : ℝ :=
  clip ((∑ i, ((joint_vel i - last_joint_vel i) / (dt + EPS)) ^ 2) / 120000) 0 1

def reward_mechanical_work (torques velocities : Vec12) : ℝ :=
  clip ((∑ i, |torques i * velocities i|) / 600) 0 1

def reward_action_rate (act last_act : Vec12) : ℝ :=
  clip ((∑ i, (act i - last_act i) ^ 2) / 48) 0 1

def reward_tracking_lin_vel (commands : Vec3) (x : Transform) (xd : Motion)
    (tracking_sigma : ℝ) : ℝ :=
  clip (Real.exp (-linVelTrackError commands x xd / (tracking_sigma + EPS))) 0 1

def reward_tracking_ang_vel (commands : Vec3) (x : Transform) (xd : Motion)
    (tracking_sigma : ℝ) : ℝ :=
  clip (Real.exp (-angVelTrackError commands x xd / (tracking_sigma + EPS))) 0 1

def reward_feet_air_time (air_time first_contact : Fin 4 → ℝ) (commands : Vec3)
    (minimum_airtime : ℝ) : ℝ :=
  clip ((∑ i, (air_time i - minimum_airtime) * first_contact i) *
    (if safe_norm3 commands > 1 / 20 then 1 else 0) / 2) 0 1

def reward_abduction_angle (joint_angles : Vec12)
    (desired_abduction_angles : Fin 4 → ℝ) : ℝ :=
  clip ((∑ i, (joint_angles (abdIdx i) - desired_abduction_angles i) ^ 2)
    / Real.pi ^ 2) 0 1

def reward_stand_still (commands : Vec3) (joint_angles default_pose : Vec12)
    (command_threshold : ℝ) : ℝ :=
  clip ((∑ i, |joint_angles i - default_pose i|) *
    (if safe_norm3 commands < command_threshold then 1 else 0)
    / (12 * Real.pi)) 0 1

def reward_foot_slip (ps : PipelineState) (contact_filt : Fin 4 → ℝ)
    (feet_site_id lower_leg_body_id : Fin 4 → ℕ) : ℝ :=
  clip ((∑ i,
      ((ps.xd_vel (lower_leg_body_id i - 1) 0 -
          cross3 (fun j => ps.site_xpos (feet_site_id i) j -
            ps.xpos (lower_leg_body_id i) j)
            (ps.xd_ang (lower_leg_body_id i - 1)) 0) ^ 2 +
        (ps.xd_vel (lower_leg_body_id i - 1) 1 -
          cross3 (fun j => ps.site_xpos (feet_site_id i) j -
            ps.xpos (lower_leg_body_id i) j)
            (ps.xd_ang (lower_leg_body_id i - 1)) 1) ^ 2) * contact_filt i)
    / 16) 0 1

def reward_termination (done : Bool) (step step_threshold : ℤ) : Bool :=
  done && decide (step < step_threshold)

def reward_geom_collision (ps : PipelineState) (geom_ids : List ℤ) : ℝ :=
  clip (collisionCount ps.contact geom_ids / 10) 0 1

end RK

/-! ## Signed-wide catalog (`rewards_test_w.py`) -/

namespace RW

def reward_lin_vel_z (xd : Motion) : ℝ :=
  clip (xd.vel 2 ^ 2) (-1000) 1000

def reward_ang_vel_xy (xd : Motion) : ℝ :=
  clip (xd.ang 0 ^ 2 + xd.ang 1 ^ 2) (-1000) 1000

def reward_tracking_orientation (desired : Vec3) (x : Transform)
    (tracking_sigma : ℝ) : ℝ :=
  clip (Real.exp (-orientationTrackError desired x / (tracking_sigma + EPS)))
    (-1000) 1000

def reward_orientation (x : Transform) : ℝ :=
  clip (rotate worldZ x.rot 0 ^ 2 + rotate worldZ x.rot 1 ^ 2) (-1000) 1000

def reward_torques (torques : Vec12) : ℝ :=
  clip (∑ i, torques i ^ 2) (-1000) 1000

def reward_joint_acceleration (joint_vel last_joint_vel : Vec12) (dt : ℝ) : ℝ :=
  clip (∑ i, ((joint_vel i - last_joint_vel i) / (dt + EPS)) ^ 2) (-1000) 1000

def reward_mechanical_work (torques velocities : Vec12) : ℝ :=
  clip (∑ i, |torques i * velocities i|) (-1000) 1000

def reward_action_rate (act last_act : Vec12) : ℝ :=
  clip (∑ i, (act i - last_act i) ^ 2) (-1000) 1000

def reward_tracking_lin_vel (commands : Vec3) (x : Transform) (xd : Motion)
    (tracking_sigma : ℝ) : ℝ :=
  clip (Real.exp (-linVelTrackError commands x xd / (tracking_sigma + EPS)))
    (-1000) 1000

def reward_tracking_ang_vel (commands : Vec3) (x : Transform) (xd : Motion)
    (tracking_sigma : ℝ) : ℝ :=
  clip (Real.exp (-angVelTrackError commands x xd / (tracking_sigma + EPS)))
    (-1000) 1000

def reward_feet_air_time (air_time first_contact : Fin 4 → ℝ) (commands : Vec3)
    (minimum_airtime : ℝ) : ℝ :=
  clip ((∑ i, (air_time i - minimum_airtime) * first_contact i) *
    (if safe_norm3 commands > 1 / 20 then 1 else 0)) (-1000) 1000

def reward_abduction_angle (joint_angles : Vec12)
    (desired_abduction_angles : Fin 4 → ℝ) : ℝ :=
  clip (∑ i, (joint_angles (abdIdx i) - desired_abduction_angles i) ^ 2)
    (-1000) 1000

def reward_stand_still (commands : Vec3) (joint_angles default_pose : Vec12)
    (command_threshold : ℝ) : ℝ :=
  clip ((∑ i, |joint_angles i - default_pose i|) *
    (if safe_norm3 commands < command_threshold then 1 else 0)) (-1000) 1000

def reward_foot_slip (ps : PipelineState) (contact_filt : Fin 4 → ℝ)
    (feet_site_id lower_leg_body_id : Fin 4 → ℕ) : ℝ :=
  clip (∑ i,
      ((ps.xd_vel (lower_leg_body_id i - 1) 0 -
          cross3 (fun j => ps.site_xpos (feet_site_id i) j -
            ps.xpos (lower_leg_body_id i) j)
            (ps.xd_ang (lower_leg_body_id i - 1)) 0) ^ 2 +
        (ps.xd_vel (lower_leg_body_id i - 1) 1 -
          cross3 (fun j => ps.site_xpos (feet_site_id i) j -
            ps.xpos (lower_leg_body_id i) j)
            (ps.xd_ang (lower_leg_body_id i - 1)) 1) ^ 2) * contact_filt i)
    (-1000) 1000

def reward_termination (done : Bool) (step step_threshold : ℤ) : Bool :=
  done && decide (step < step_threshold)

def reward_geom_collision (ps : PipelineState) (geom_ids : List ℤ) : ℝ :=
  clip (collisionCount ps.contact geom_ids) (-1000) 1000

end RW

/-! ## Helper lemmas about `clip` -/

theorem clip01_nonneg (x : ℝ) : 0 ≤ clip x 0 1 :=
  le_min (le_max_right x 0) zero_le_one

theorem clip_le_hi (x lo hi : ℝ) : clip x lo hi ≤ hi := min_le_right _ _

theorem clipw_lo (x : ℝ) : (-1000 : ℝ) ≤ clip x (-1000) 1000 :=
  le_min (le_max_right x (-1000)) (by norm_num)

theorem clip_eq_self (x lo hi : ℝ) (h1 : lo ≤ x) (h2 : x ≤ hi) :
    clip x lo hi = x := by
  unfold clip
  rw [max_eq_left h1, min_eq_left h2]

theorem clip_mono (x y lo hi : ℝ) (h : x ≤ y) :
    clip x lo hi ≤ clip y lo hi :=
  min_le_min (max_le_max h (le_refl lo)) (le_refl hi)

/-! ## Claim theorems -/

/-- C1: every reward term of the unit-interval catalog (`rewards_test_k.py`)
returns a value in `[0, 1]` and every term of the signed-wide catalog
(`rewards_test_w.py`) returns a value in `[-1000, 1000]`, for arbitrary
(finite, real) inputs; `reward_termination` returns a boolean whose 0/1
value lies in both bounds. -/
theorem C1_catalog_bounds :
    (∀ xd, 0 ≤ RK.reward_lin_vel_z xd ∧ RK.reward_lin_vel_z xd ≤ 1) ∧
    (∀ xd, 0 ≤ RK.reward_ang_vel_xy xd ∧ RK.reward_ang_vel_xy xd ≤ 1) ∧
    (∀ d x σ, 0 ≤ RK.reward_tracking_orientation d x σ ∧
      RK.reward_tracking_orientation d x σ ≤ 1) ∧
    (∀ x, 0 ≤ RK.reward_orientation x ∧ RK.reward_orientation x ≤ 1) ∧
    (∀ τ, 0 ≤ RK.reward_torques τ ∧ RK.reward_torques τ ≤ 1) ∧
    (∀ jv ljv dt, 0 ≤ RK.reward_joint_acceleration jv ljv dt ∧
      RK.reward_joint_acceleration jv ljv dt ≤ 1) ∧
    (∀ τ v, 0 ≤ RK.reward_mechanical_work τ v ∧
      RK.reward_mechanical_work τ v ≤ 1) ∧
    (∀ a la, 0 ≤ RK.reward_action_rate a la ∧ RK.reward_action_rate a la ≤ 1) ∧
    (∀ c x xd σ, 0 ≤ RK.reward_tracking_lin_vel c x xd σ ∧
      RK.reward_tracking_lin_vel c x xd σ ≤ 1) ∧
    (∀ c x xd σ, 0 ≤ RK.reward_tracking_ang_vel c x xd σ ∧
      RK.reward_tracking_ang_vel c x xd σ ≤ 1) ∧
    (∀ a f c m, 0 ≤ RK.reward_feet_air_time a f c m ∧
      RK.reward_feet_air_time a f c m ≤ 1) ∧
    (∀ ja d, 0 ≤ RK.reward_abduction_angle ja d ∧
      RK.reward_abduction_angle ja d ≤ 1) ∧
    (∀ c ja dp t, 0 ≤ RK.reward_stand_still c ja dp t ∧
      RK.reward_stand_still c ja dp t ≤ 1) ∧
    (∀ ps cf fs ll, 0 ≤ RK.reward_foot_slip ps cf fs ll ∧
      RK.reward_foot_slip ps cf fs ll ≤ 1) ∧
    (∀ ps g, 0 ≤ RK.reward_geom_collision ps g ∧
      RK.reward_geom_collision ps g ≤ 1) ∧
    (∀ xd, -1000 ≤ RW.reward_lin_vel_z xd ∧ RW.reward_lin_vel_z xd ≤ 1000) ∧
    (∀ xd, -1000 ≤ RW.reward_ang_vel_xy xd ∧ RW.reward_ang_vel_xy xd ≤ 1000) ∧
    (∀ d x σ, -1000 ≤ RW.reward_tracking_orientation d x σ ∧
      RW.reward_tracking_orientation d x σ ≤ 1000) ∧
    (∀ x, -1000 ≤ RW.reward_orientation x ∧ RW.reward_orientation x ≤ 1000) ∧
    (∀ τ, -1000 ≤ RW.reward_torques τ ∧ RW.reward_torques τ ≤ 1000) ∧
    (∀ jv ljv dt, -1000 ≤ RW.reward_joint_acceleration jv ljv dt ∧
      RW.reward_joint_acceleration jv ljv dt ≤ 1000) ∧
    (∀ τ v, -1000 ≤ RW.reward_mechanical_work τ v ∧
      RW.reward_mechanical_work τ v ≤ 1000) ∧
    (∀ a la, -1000 ≤ RW.reward_action_rate a la ∧
      RW.reward_action_rate a la ≤ 1000) ∧
    (∀ c x xd σ, -1000 ≤ RW.reward_tracking_lin_vel c x xd σ ∧
      RW.reward_tracking_lin_vel c x xd σ ≤ 1000) ∧
    (∀ c x xd σ, -1000 ≤ RW.reward_tracking_ang_vel c x xd σ ∧
      RW.reward_tracking_ang_vel c x xd σ ≤ 1000) ∧
    (∀ a f c m, -1000 ≤ RW.reward_feet_air_time a f c m ∧
      RW.reward_feet_air_time a f c m ≤ 1000) ∧
    (∀ ja d, -1000 ≤ RW.reward_abduction_angle ja d ∧
      RW.reward_abduction_angle ja d ≤ 1000) ∧
    (∀ c ja dp t, -1000 ≤ RW.reward_stand_still c ja dp t ∧
      RW.reward_stand_still c ja dp t ≤ 1000) ∧
    (∀ ps cf fs ll, -1000 ≤ RW.reward_foot_slip ps cf fs ll ∧
      RW.reward_foot_slip ps cf fs ll ≤ 1000) ∧
    (∀ ps g, -1000 ≤ RW.reward_geom_collision ps g ∧
      RW.reward_geom_collision ps g ≤ 1000) ∧
    (∀ done s t, 0 ≤ boolVal (RK.reward_termination done s t) ∧
      boolVal (RK.reward_termination done s t) ≤ 1 ∧
      -1000 ≤ boolVal (RW.reward_termination done s t) ∧
      boolVal (RW.reward_termination done s t) ≤ 1000) :=
  ⟨fun _ => ⟨clip01_nonneg _, clip_le_hi _ _ _⟩,
    fun _ => ⟨clip01_nonneg _, clip_le_hi _ _ _⟩,
    fun _ _ _ => ⟨clip01_nonneg _, clip_le_hi _ _ _⟩,
    fun _ => ⟨clip01_nonneg _, clip_le_hi _ _ _⟩,
    fun _ => ⟨clip01_nonneg _, clip_le_hi _ _ _⟩,
    fun _ _ _ => ⟨clip01_nonneg _, clip_le_hi _ _ _⟩,
    fun _ _ => ⟨clip01_nonneg _, clip_le_hi _ _ _⟩,
    fun _ _ => ⟨clip01_nonneg _, clip_le_hi _ _ _⟩,
    fun _ _ _ _ => ⟨clip01_nonneg _, clip_le_hi _ _ _⟩,
    fun _ _ _ _ => ⟨clip01_nonneg _, clip_le_hi _ _ _⟩,
    fun _ _ _ _ => ⟨clip01_nonneg _, clip_le_hi _ _ _⟩,
    fun _ _ => ⟨clip01_nonneg _, clip_le_hi _ _ _⟩,
    fun _ _ _ _ => ⟨clip01_nonneg _, clip_le_hi _ _ _⟩,
    fun _ _ _ _ => ⟨clip01_nonneg _, clip_le_hi _ _ _⟩,
    fun _ _ => ⟨clip01_nonneg _, clip_le_hi _ _ _⟩,
    fun _ => ⟨clipw_lo _, clip_le_hi _ _ _⟩,
    fun _ => ⟨clipw_lo _, clip_le_hi _ _ _⟩,
    fun _ _ _ => ⟨clipw_lo _, clip_le_hi _ _ _⟩,
    fun _ => ⟨clipw_lo _, clip_le_hi _ _ _⟩,
    fun _ => ⟨clipw_lo _, clip_le_hi _ _ _⟩,
    fun _ _ _ => ⟨clipw_lo _, clip_le_hi _ _ _⟩,
    fun _ _ => ⟨clipw_lo _, clip_le_hi _ _ _⟩,
    fun _ _ => ⟨clipw_lo _, clip_le_hi _ _ _⟩,
    fun _ _ _ _ => ⟨clipw_lo _, clip_le_hi _ _ _⟩,
    fun _ _ _ _ => ⟨clipw_lo _, clip_le_hi _ _ _⟩,
    fun _ _ _ _ => ⟨clipw_lo _, clip_le_hi _ _ _⟩,
    fun _ _ => ⟨clipw_lo _, clip_le_hi _ _ _⟩,
    fun _ _ _ _ => ⟨clipw_lo _, clip_le_hi _ _ _⟩,
    fun _ _ _ _ => ⟨clipw_lo _, clip_le_hi _ _ _⟩,
    fun _ _ => ⟨clipw_lo _, clip_le_hi _ _ _⟩,
    fun d s t => by
      have hw : RW.reward_termination d s t = RK.reward_termination d s t := rfl
      rw [hw, boolVal]
      cases RK.reward_termination d s t <;> norm_num⟩

/-- C2: in both catalogs, `reward_termination` returns `true` iff `done` is
`true` and `step < step_threshold`; in particular it returns `false` when
`step = step_threshold`. -/
theorem C2_termination_iff :
    ∀ (done : Bool) (step step_threshold : ℤ),
      (RK.reward_termination done step step_threshold = true ↔
        done = true ∧ step < step_threshold) ∧
      (RW.reward_termination done step step_threshold = true ↔
        done = true ∧ step < step_threshold) ∧
      RK.reward_termination done step step = false ∧
      RW.reward_termination done step step = false := by
  intro d s t
  refine ⟨?_, ?_, ?_, ?_⟩ <;>
    simp [RK.reward_termination, RW.reward_termination]

/-! ## Evaluation of vector-literal entries -/

theorem vec3_zero (a b c : ℝ) : ![a, b, c] 0 = a := rfl

theorem vec3_one (a b c : ℝ) : ![a, b, c] 1 = b := rfl

theorem vec3_two (a b c : ℝ) : ![a, b, c] 2 = c := rfl

theorem vec4_zero (a b c d : ℝ) : ![a, b, c, d] 0 = a := rfl

theorem vec4_one (a b c d : ℝ) : ![a, b, c, d] 1 = b := rfl

theorem vec4_two (a b c d : ℝ) : ![a, b, c, d] 2 = c := rfl

theorem vec4_three (a b c d : ℝ) : ![a, b, c, d] 3 = d := rfl

/-! ## Tracking-term lemmas -/

theorem EPS_pos : (0 : ℝ) < EPS := by norm_num [EPS]

theorem orientationTrackError_nonneg (d : Vec3) (x : Transform) :
    0 ≤ orientationTrackError d x := by
  unfold orientationTrackError; positivity

theorem linVelTrackError_nonneg (c : Vec3) (x : Transform) (xd : Motion) :
    0 ≤ linVelTrackError c x xd := by
  unfold linVelTrackError; positivity

theorem angVelTrackError_nonneg (c : Vec3) (x : Transform) (xd : Motion) :
    0 ≤ angVelTrackError c x xd := by
  unfold angVelTrackError; positivity

theorem exp_track_le_one (e s : ℝ) (he : 0 ≤ e) (hs : 0 < s) :
    Real.exp (-e / s) ≤ 1 := by
  rw [← Real.exp_zero]
  exact Real.exp_le_exp.mpr
    (div_nonpos_of_nonpos_of_nonneg (neg_nonpos.mpr he) hs.le)

theorem clipK_exp_eq (e s : ℝ) (he : 0 ≤ e) (hs : 0 < s) :
    clip (Real.exp (-e / s)) 0 1 = Real.exp (-e / s) :=
  clip_eq_self _ _ _ (Real.exp_pos _).le (exp_track_le_one e s he hs)

theorem clipW_exp_eq (e s : ℝ) (he : 0 ≤ e) (hs : 0 < s) :
    clip (Real.exp (-e / s)) (-1000) 1000 = Real.exp (-e / s) :=
  clip_eq_self _ _ _ (by linarith [Real.exp_pos (-e / s)])
    (by linarith [exp_track_le_one e s he hs])

theorem trackVal_one (e s : ℝ) (he : e = 0) :
    clip (Real.exp (-e / s)) 0 1 = 1 := by
  subst he
  norm_num [clip]

theorem trackVal_strict (e e' s : ℝ) (he : 0 ≤ e) (h : e < e') (hs : 0 < s) :
    clip (Real.exp (-e' / s)) 0 1 < clip (Real.exp (-e / s)) 0 1 := by
  rw [clipK_exp_eq e s he hs, clipK_exp_eq e' s (le_trans he h.le) hs]
  refine Real.exp_lt_exp.mpr ?_
  rw [div_lt_div_iff₀ hs hs]
  nlinarith

/-- C5: in the unit-interval catalog, each exponential-tracking term
(`reward_tracking_lin_vel`, `reward_tracking_ang_vel`,
`reward_tracking_orientation`) evaluates to exactly `1` when its tracking
error is zero, and is strictly decreasing in the tracking error, for any
fixed positive `tracking_sigma`. -/
theorem C5_tracking_peak_strict_mono (σ : ℝ) (hσ : 0 < σ) :
    (∀ c x xd, linVelTrackError c x xd = 0 →
      RK.reward_tracking_lin_vel c x xd σ = 1) ∧
    (∀ c x xd c' x' xd',
      linVelTrackError c x xd < linVelTrackError c' x' xd' →
      RK.reward_tracking_lin_vel c' x' xd' σ <
        RK.reward_tracking_lin_vel c x xd σ) ∧
    (∀ c x xd, angVelTrackError c x xd = 0 →
      RK.reward_tracking_ang_vel c x xd σ = 1) ∧
    (∀ c x xd c' x' xd',
      angVelTrackError c x xd < angVelTrackError c' x' xd' →
      RK.reward_tracking_ang_vel c' x' xd' σ <
        RK.reward_tracking_ang_vel c x xd σ) ∧
    (∀ d x, orientationTrackError d x = 0 →
      RK.reward_tracking_orientation d x σ = 1) ∧
    (∀ d x d' x', orientationTrackError d x < orientationTrackError d' x' →
      RK.reward_tracking_orientation d' x' σ <
        RK.reward_tracking_orientation d x σ) := by
  have hs : 0 < σ + EPS := add_pos hσ EPS_pos
  refine ⟨?_, ?_, ?_, ?_, ?_, ?_⟩
  · intro c x xd he
    exact trackVal_one _ _ he
  · intro c x xd c' x' xd' h
    exact trackVal_strict _ _ _ (linVelTrackError_nonneg c x xd) h hs
  · intro c x xd he
    exact trackVal_one _ _ he
  · intro c x xd c' x' xd' h
    exact trackVal_strict _ _ _ (angVelTrackError_nonneg c x xd) h hs
  · intro d x he
    exact trackVal_one _ _ he
  · intro d x d' x' h
    exact trackVal_strict _ _ _ (orientationTrackError_nonneg d x) h hs

theorem linVelTrackError_zero_input :
    linVelTrackError ![0, 0, 0] xId xdZero = 0 := by
  simp [linVelTrackError, rotate, dot3, cross3, quatVec, quat_inv, xId, xdZero,
    Matrix.cons_val_zero, Matrix.cons_val_one, Matrix.head_cons]

/-- Witness for C5 at `σ = 1`, zero command, identity pose, zero motion. -/
theorem C5_tracking_witness :
    RK.reward_tracking_lin_vel ![0, 0, 0] xId xdZero 1 = 1 :=
  (C5_tracking_peak_strict_mono 1 one_pos).1 ![0, 0, 0] xId xdZero
    linVelTrackError_zero_input

/-- C8: the `dt + EPS` / `σ + EPS` guards keep the divisions defined at
`dt = 0` and `tracking_sigma = 0`: the denominator `0 + EPS` is strictly
positive, `reward_joint_acceleration` at `dt = 0` equals the clipped formula
with the difference quotient divided by `EPS`, and `reward_tracking_lin_vel`
at `σ = 0` equals the clipped exponential with denominator `EPS`. -/
theorem C8_eps_guard (jv ljv : Vec12) (c : Vec3) (x : Transform) (xd : Motion) :
    (0 : ℝ) < 0 + EPS ∧
    RK.reward_joint_acceleration jv ljv 0 =
      clip ((∑ i, ((jv i - ljv i) / EPS) ^ 2) / 120000) 0 1 ∧
    RK.reward_tracking_lin_vel c x xd 0 =
      clip (Real.exp (-linVelTrackError c x xd / EPS)) 0 1 := by
  refine ⟨by norm_num [EPS], ?_, ?_⟩ <;>
    simp [RK.reward_joint_acceleration, RK.reward_tracking_lin_vel, zero_add]

/-- C3 counterexample: the gate of `reward_feet_air_time` tests the norm of
the FULL 3-component command `commands[:3]`, not the planar norm.  For the
command `(0, 0, 1)` the planar norm is `0 ≤ 0.05`, yet with
`air_time = (0.6, 0, 0, 0)`, `first_contact = (1, 0, 0, 0)` the unit-interval
value is `1/4` and the signed-wide value is `1/2`, not `0`. -/
theorem C3_counterexample :
    Real.sqrt ((0 : ℝ) ^ 2 + 0 ^ 2) ≤ 1 / 20 ∧
    RK.reward_feet_air_time ![6/10, 0, 0, 0] ![1, 0, 0, 0] ![0, 0, 1]
      (1/10) = 1/4 ∧
    RW.reward_feet_air_time ![6/10, 0, 0, 0] ![1, 0, 0, 0] ![0, 0, 1]
      (1/10) = 1/2 := by
  have hsn : safe_norm3 ![0, 0, 1] = 1 := by
    norm_num [safe_norm3, ATOL, vec3_zero, vec3_one, vec3_two]
  have hgate : safe_norm3 ![0, 0, 1] > 1/20 := by rw [hsn]; norm_num
  refine ⟨by norm_num, ?_, ?_⟩ <;>
  · simp only [RK.reward_feet_air_time, RW.reward_feet_air_time]
    rw [if_pos hgate]
    norm_num [Fin.sum_univ_four, vec4_zero, vec4_one, vec4_two, vec4_three,
      clip]

/-- C3 (amended): `reward_feet_air_time` is exactly `0`, in both catalogs,
whenever the computed norm of the full 3-component command (brax
`safe_norm`) is at most `0.05`, regardless of `air_time` and
`first_contact`. -/
theorem C3_feet_air_time_amended (air_time first_contact : Fin 4 → ℝ)
    (commands : Vec3) (minimum_airtime : ℝ)
    (h : safe_norm3 commands ≤ 1 / 20) :
    RK.reward_feet_air_time air_time first_contact commands
      minimum_airtime = 0 ∧
    RW.reward_feet_air_time air_time first_contact commands
      minimum_airtime = 0 := by
  have hg : ¬ (safe_norm3 commands > 1 / 20) := not_lt.mpr h
  constructor <;>
    norm_num [RK.reward_feet_air_time, RW.reward_feet_air_time, hg, clip]

/-- Witness for C3 (amended) at the zero command. -/
theorem C3_feet_air_time_witness :
    RK.reward_feet_air_time ![1, 1, 1, 1] ![1, 1, 1, 1] ![0, 0, 0]
      (1/10) = 0 ∧
    RW.reward_feet_air_time ![1, 1, 1, 1] ![1, 1, 1, 1] ![0, 0, 0]
      (1/10) = 0 :=
  C3_feet_air_time_amended _ _ _ _
    (by norm_num [safe_norm3, ATOL, vec3_zero, vec3_one, vec3_two])

/-- C4 counterexample: the claim fails in the zero-snap corner of brax
`safe_norm`.  With threshold `1e-9` and command `(1e-9, 0, 0)` the planar
norm `1e-9` is ≥ the threshold, yet `safe_norm` snaps the norm to `0`
(every component is within the `1e-8` allclose tolerance), the gate
`norm < threshold` fires, and with joint angles `π` away from the default
pose the unit-interval value is `1`, not `0`. -/
theorem C4_counterexample :
    Real.sqrt ((1/1000000000 : ℝ) ^ 2 + 0 ^ 2) ≥ 1/1000000000 ∧
    RK.reward_stand_still ![1/1000000000, 0, 0] (fun _ => Real.pi)
      (fun _ => 0) (1/1000000000) = 1 := by
  constructor
  · rw [show ((1/1000000000 : ℝ) ^ 2 + 0 ^ 2) = (1/1000000000 : ℝ) ^ 2 by
      ring]
    rw [Real.sqrt_sq (by norm_num)]
  · have hgate : safe_norm3 ![1/1000000000, 0, 0] < 1/1000000000 := by
      norm_num [safe_norm3, ATOL, vec3_zero, vec3_one, vec3_two,
        abs_of_pos, abs_zero]
    have hpi : (12 : ℝ) * Real.pi ≠ 0 := by positivity
    unfold RK.reward_stand_still
    simp only [if_pos hgate, sub_zero, abs_of_pos Real.pi_pos,
      Finset.sum_const, Finset.card_univ, Fintype.card_fin, nsmul_eq_mul,
      Nat.cast_ofNat, mul_one]
    rw [div_self hpi]
    norm_num [clip]

/-- C4 (amended): `reward_stand_still` is exactly `0`, in both catalogs,
whenever the computed command norm (brax `safe_norm` of the full
3-component command, which snaps to `0` when every component is within
`1e-8` of zero) is at least the command threshold; it is always
non-negative, it is monotone in `Σ|joint_angles − default_pose|`, and it is
`0` at the zero command with joint angles equal to the default pose. -/
theorem C4_stand_still_amended :
    (∀ (commands : Vec3) (ja dp : Vec12) (t : ℝ), t ≤ safe_norm3 commands →
      RK.reward_stand_still commands ja dp t = 0 ∧
      RW.reward_stand_still commands ja dp t = 0) ∧
    (∀ (commands : Vec3) (ja dp : Vec12) (t : ℝ),
      0 ≤ RK.reward_stand_still commands ja dp t ∧
      0 ≤ RW.reward_stand_still commands ja dp t) ∧
    (∀ (commands : Vec3) (ja ja' dp : Vec12) (t : ℝ),
      (∑ i, |ja i - dp i|) ≤ (∑ i, |ja' i - dp i|) →
      RK.reward_stand_still commands ja dp t ≤
        RK.reward_stand_still commands ja' dp t) ∧
    (∀ (dp : Vec12) (t : ℝ),
      RK.reward_stand_still ![0, 0, 0] dp dp t = 0 ∧
      RW.reward_stand_still ![0, 0, 0] dp dp t = 0) := by
  refine ⟨?_, ?_, ?_, ?_⟩
  · intro commands ja dp t h
    have hg : ¬ (safe_norm3 commands < t) := not_lt.mpr h
    constructor <;>
      norm_num [RK.reward_stand_still, RW.reward_stand_still, hg, clip]
  · intro commands ja dp t
    have hS : 0 ≤ ∑ i, |ja i - dp i| :=
      Finset.sum_nonneg (fun i _ => abs_nonneg _)
    have hg : (0:ℝ) ≤ (if safe_norm3 commands < t then (1:ℝ) else 0) := by
      split <;> norm_num
    refine ⟨clip01_nonneg _, ?_⟩
    unfold RW.reward_stand_still
    exact le_min (le_trans (mul_nonneg hS hg) (le_max_left _ _))
      (by norm_num)
  · intro commands ja ja' dp t h
    have hg : (0:ℝ) ≤ (if safe_norm3 commands < t then (1:ℝ) else 0) := by
      split <;> norm_num
    apply clip_mono
    have hpi : (0:ℝ) < 12 * Real.pi := by positivity
    have hmul := mul_le_mul_of_nonneg_right h hg
    exact div_le_div_of_nonneg_right hmul hpi.le
  · intro dp t
    constructor <;>
      norm_num [RK.reward_stand_still, RW.reward_stand_still, sub_self,
        clip]

/-- Witness for C4 (amended) at command `(1, 0, 0)` and threshold `1/2`. -/
theorem C4_stand_still_witness :
    RK.reward_stand_still ![1, 0, 0] (fun _ => 0) (fun _ => 0) (1/2) = 0 ∧
    RW.reward_stand_still ![1, 0, 0] (fun _ => 0) (fun _ => 0) (1/2) = 0 :=
  C4_stand_still_amended.1 ![1, 0, 0] _ _ (1/2)
    (by norm_num [safe_norm3, ATOL, vec3_zero, vec3_one, vec3_two])

/-! ## Collision-count lemmas -/

theorem collisionContrib_nonneg (c : Contact) (id : ℤ) :
    0 ≤ collisionContrib c id := by
  unfold collisionContrib
  split <;> norm_num

theorem collisionCount_nonneg (cs : List Contact) (ids : List ℤ) :
    0 ≤ collisionCount cs ids := by
  unfold collisionCount
  refine List.sum_nonneg ?_
  intro x hx
  obtain ⟨id, -, rfl⟩ := List.mem_map.mp hx
  refine List.sum_nonneg ?_
  intro y hy
  obtain ⟨c, -, rfl⟩ := List.mem_map.mp hy
  exact collisionContrib_nonneg c id

theorem contrib_sum_nonneg (c : Contact) (ids : List ℤ) :
    0 ≤ (ids.map (fun i => collisionContrib c i)).sum := by
  refine List.sum_nonneg ?_
  intro x hx
  obtain ⟨i, -, rfl⟩ := List.mem_map.mp hx
  exact collisionContrib_nonneg c i

theorem contrib_sum_ge_one (c : Contact) (ids : List ℤ) (id : ℤ)
    (hid : id ∈ ids) (hmatch : (c.geom1 = id ∨ c.geom2 = id) ∧ c.dist < 0) :
    1 ≤ (ids.map (fun i => collisionContrib c i)).sum := by
  have h1 : collisionContrib c id = 1 := by
    unfold collisionContrib
    rw [if_pos hmatch]
  have hmem : collisionContrib c id ∈ ids.map (fun i => collisionContrib c i) :=
    List.mem_map_of_mem _ hid
  have hnn : ∀ x ∈ ids.map (fun i => collisionContrib c i), 0 ≤ x := by
    intro x hx
    obtain ⟨i, -, rfl⟩ := List.mem_map.mp hx
    exact collisionContrib_nonneg c i
  calc (1 : ℝ) = collisionContrib c id := h1.symm
    _ ≤ _ := List.single_le_sum hnn _ hmem

theorem collisionCount_append_single (cs : List Contact) (c : Contact)
    (ids : List ℤ) :
    collisionCount (cs ++ [c]) ids =
      collisionCount cs ids +
        (ids.map (fun id => collisionContrib c id)).sum := by
  induction ids with
  | nil => simp [collisionCount]
  | cons hd tl ih =>
    simp only [collisionCount, List.map_cons, List.sum_cons,
      List.map_append, List.sum_append, List.map_nil, List.sum_nil,
      add_zero] at ih ⊢
    rw [ih]
    ring

/-- C6 counterexample: the unit-interval `reward_geom_collision` saturates
at `1`, so an additional colliding watched contact need not strictly
increase the value: with 10 and with 11 copies of the colliding contact
`(5, 9, -0.01)` and watched set `{9}` the value is `1` both times. -/
theorem C6_counterexample :
    RK.reward_geom_collision
        (psOfContacts (List.replicate 11 ⟨5, 9, -(1/100)⟩)) [9] =
      RK.reward_geom_collision
        (psOfContacts (List.replicate 10 ⟨5, 9, -(1/100)⟩)) [9] ∧
    RK.reward_geom_collision
      (psOfContacts (List.replicate 10 ⟨5, 9, -(1/100)⟩)) [9] = 1 := by
  have hc : collisionContrib ⟨5, 9, -(1/100)⟩ 9 = 1 := by
    norm_num [collisionContrib]
  have h10 : collisionCount (List.replicate 10 ⟨5, 9, -(1/100)⟩) [9] = 10 := by
    simp only [collisionCount, List.map_cons, List.map_nil, List.sum_cons,
      List.sum_nil, List.map_replicate, hc, List.sum_replicate,
      nsmul_eq_mul, Nat.cast_ofNat, add_zero, mul_one]
  have h11 : collisionCount (List.replicate 11 ⟨5, 9, -(1/100)⟩) [9] = 11 := by
    simp only [collisionCount, List.map_cons, List.map_nil, List.sum_cons,
      List.sum_nil, List.map_replicate, hc, List.sum_replicate,
      nsmul_eq_mul, Nat.cast_ofNat, add_zero, mul_one]
  constructor <;>
    norm_num [RK.reward_geom_collision, psOfContacts, h10, h11, clip]

/-- C6 (amended): `reward_geom_collision` is `0` (in both catalogs) when no
contact has negative distance, and each additional negative-distance contact
touching a watched geometry id strictly increases the unit-interval value as
long as the accumulated count stays below the saturation point `10`; in the
scenario with contacts `(5, 9, -0.01)`, `(1, 2, 0.5)` and watched set `{9}`
the unit-interval value is `1/10`. -/
theorem C6_geom_collision_amended :
    (∀ (ps : PipelineState) (ids : List ℤ),
      (∀ c ∈ ps.contact, 0 ≤ c.dist) →
      RK.reward_geom_collision ps ids = 0 ∧
      RW.reward_geom_collision ps ids = 0) ∧
    (∀ (cs : List Contact) (c : Contact) (ids : List ℤ) (id : ℤ),
      id ∈ ids → (c.geom1 = id ∨ c.geom2 = id) → c.dist < 0 →
      collisionCount cs ids < 10 →
      RK.reward_geom_collision (psOfContacts cs) ids <
        RK.reward_geom_collision (psOfContacts (cs ++ [c])) ids) ∧
    RK.reward_geom_collision
      (psOfContacts [⟨5, 9, -(1/100)⟩, ⟨1, 2, 1/2⟩]) [9] = 1/10 := by
  refine ⟨?_, ?_, ?_⟩
  · intro ps ids h
    have hz : collisionCount ps.contact ids = 0 := by
      unfold collisionCount
      refine List.sum_eq_zero ?_
      intro x hx
      obtain ⟨id, -, rfl⟩ := List.mem_map.mp hx
      refine List.sum_eq_zero ?_
      intro y hy
      obtain ⟨c, hc, rfl⟩ := List.mem_map.mp hy
      unfold collisionContrib
      rw [if_neg]
      rintro ⟨-, hd⟩
      exact absurd hd (not_lt.mpr (h c hc))
    constructor <;>
      norm_num [RK.reward_geom_collision, RW.reward_geom_collision, hz, clip]
  · intro cs c ids id hid hmatch hdist hlt
    have hcount := collisionCount_nonneg cs ids
    have happ := collisionCount_append_single cs c ids
    have hge1 := contrib_sum_ge_one c ids id hid ⟨hmatch, hdist⟩
    show clip (collisionCount cs ids / 10) 0 1 <
      clip (collisionCount (cs ++ [c]) ids / 10) 0 1
    rw [clip_eq_self _ _ _ (div_nonneg hcount (by norm_num)) (by linarith)]
    unfold clip
    rw [max_eq_left (by rw [happ]; linarith)]
    refine lt_min ?_ ?_
    · rw [happ]
      linarith
    · linarith
  · have h1 : collisionContrib ⟨5, 9, -(1/100)⟩ 9 = 1 := by
      norm_num [collisionContrib]
    have h2 : collisionContrib ⟨1, 2, 1/2⟩ 9 = 0 := by
      norm_num [collisionContrib]
    show clip (collisionCount [⟨5, 9, -(1/100)⟩, ⟨1, 2, 1/2⟩] [9] / 10) 0 1
      = 1/10
    norm_num [collisionCount, h1, h2, clip]

/-- Witness for C6 (amended): a non-colliding contact gives `0`, and adding
one colliding watched contact to the empty contact list strictly increases
the value. -/
theorem C6_geom_collision_witness :
    RK.reward_geom_collision (psOfContacts [⟨1, 2, 1/2⟩]) [9] = 0 ∧
    RK.reward_geom_collision (psOfContacts []) [9] <
      RK.reward_geom_collision (psOfContacts ([] ++ [⟨5, 9, -(1/100)⟩])) [9] := by
  constructor
  · refine (C6_geom_collision_amended.1 _ [9] ?_).1
    intro c hc
    have hc' : c ∈ [(⟨1, 2, 1/2⟩ : Contact)] := hc
    rw [List.mem_singleton] at hc'
    subst hc'
    norm_num
  · exact C6_geom_collision_amended.2.1 [] ⟨5, 9, -(1/100)⟩ [9] 9
      (List.mem_singleton.mpr rfl) (Or.inr rfl) (by norm_num)
      (by norm_num [collisionCount])

/-- C10: the unit-interval `reward_geom_collision` saturates: whenever the
accumulated count of watched colliding contacts is at least `10` the value
is exactly `1`, and appending any further contact leaves it unchanged;
moreover a single contact pair with both geometry ids watched is counted
once per matching id: the pair `(5, 9)` against watched `[5, 9]` counts
twice, giving value `2/10 = 1/5`. -/
theorem C10_geom_collision_saturation :
    (∀ (ps : PipelineState) (ids : List ℤ),
      10 ≤ collisionCount ps.contact ids →
      RK.reward_geom_collision ps ids = 1) ∧
    (∀ (cs : List Contact) (c : Contact) (ids : List ℤ),
      10 ≤ collisionCount cs ids →
      RK.reward_geom_collision (psOfContacts (cs ++ [c])) ids =
        RK.reward_geom_collision (psOfContacts cs) ids) ∧
    RK.reward_geom_collision (psOfContacts [⟨5, 9, -(1/100)⟩]) [5, 9]
      = 1/5 := by
  have hsat : ∀ (cs : List Contact) (ids : List ℤ),
      10 ≤ collisionCount cs ids →
      clip (collisionCount cs ids / 10) 0 1 = 1 := by
    intro cs ids h
    unfold clip
    rw [max_eq_left (by linarith), min_eq_right (by linarith)]
  refine ⟨?_, ?_, ?_⟩
  · intro ps ids h
    exact hsat ps.contact ids h
  · intro cs c ids h
    have hs := contrib_sum_nonneg c ids
    have happ := collisionCount_append_single cs c ids
    have h2 : 10 ≤ collisionCount (cs ++ [c]) ids := by rw [happ]; linarith
    show clip (collisionCount (cs ++ [c]) ids / 10) 0 1 =
      clip (collisionCount cs ids / 10) 0 1
    rw [hsat _ _ h2, hsat _ _ h]
  · have h5 : collisionContrib ⟨5, 9, -(1/100)⟩ 5 = 1 := by
      norm_num [collisionContrib]
    have h9 : collisionContrib ⟨5, 9, -(1/100)⟩ 9 = 1 := by
      norm_num [collisionContrib]
    show clip (collisionCount [⟨5, 9, -(1/100)⟩] [5, 9] / 10) 0 1 = 1/5
    norm_num [collisionCount, h5, h9, clip]

/-- Witness for C10 at 12 colliding watched contacts. -/
theorem C10_geom_collision_witness :
    RK.reward_geom_collision
      (psOfContacts (List.replicate 12 ⟨5, 9, -(1/100)⟩)) [9] = 1 := by
  apply C10_geom_collision_saturation.1
  have hc : collisionContrib (⟨5, 9, -(1/100)⟩ : Contact) 9 = 1 := by
    norm_num [collisionContrib]
  show (10 : ℝ) ≤ collisionCount (List.replicate 12 ⟨5, 9, -(1/100)⟩) [9]
  simp only [collisionCount, List.map_cons, List.map_nil, List.sum_cons,
    List.sum_nil, List.map_replicate, hc, List.sum_replicate,
    nsmul_eq_mul, Nat.cast_ofNat, add_zero, mul_one]
  norm_num

/-- C7 counterexample: the catalogs perform no state validation and define
no `StateValidationError`.  On a malformed snapshot — here an orientation
quaternion `(2, 0, 0, 0)` of squared norm `4`, far outside any unit
tolerance — `reward_tracking_orientation` returns the plain in-range value
`1` instead of failing fast. -/
theorem C7_counterexample :
    quatNormSq ![2, 0, 0, 0] ≠ 1 ∧
    RK.reward_tracking_orientation ![0, 0, 4]
      ⟨![0, 0, 0], ![2, 0, 0, 0]⟩ 1 = 1 := by
  constructor
  · norm_num [quatNormSq, vec4_zero, vec4_one, vec4_two, vec4_three]
  · have he : orientationTrackError ![0, 0, 4]
        ⟨![0, 0, 0], ![2, 0, 0, 0]⟩ = 0 := by
      norm_num [orientationTrackError, rotate, dot3, cross3, quatVec,
        quat_inv, worldZ, vec3_zero, vec3_one, vec3_two, vec4_zero,
        vec4_one, vec4_two, vec4_three]
    unfold RK.reward_tracking_orientation
    rw [he]
    norm_num [clip]

/-- C7 (amended): the reward terms perform no input validation: each is a
total function, and even on a malformed snapshot (an orientation quaternion
whose squared norm is not `1`) `reward_tracking_orientation` returns an
ordinary value inside the active convention's bound, in both catalogs —
nothing is raised. -/
theorem C7_no_validation_amended (desired : Vec3) (x : Transform) (σ : ℝ)
    (_hmal : quatNormSq x.rot ≠ 1) :
    0 ≤ RK.reward_tracking_orientation desired x σ ∧
    RK.reward_tracking_orientation desired x σ ≤ 1 ∧
    -1000 ≤ RW.reward_tracking_orientation desired x σ ∧
    RW.reward_tracking_orientation desired x σ ≤ 1000 :=
  ⟨clip01_nonneg _, clip_le_hi _ _ _, clipw_lo _, clip_le_hi _ _ _⟩

/-- Witness for C7 (amended) at the non-unit quaternion `(2, 0, 0, 0)`. -/
theorem C7_no_validation_witness :
    0 ≤ RK.reward_tracking_orientation ![0, 0, 1]
        ⟨![0, 0, 0], ![2, 0, 0, 0]⟩ 1 ∧
    RK.reward_tracking_orientation ![0, 0, 1]
        ⟨![0, 0, 0], ![2, 0, 0, 0]⟩ 1 ≤ 1 ∧
    -1000 ≤ RW.reward_tracking_orientation ![0, 0, 1]
        ⟨![0, 0, 0], ![2, 0, 0, 0]⟩ 1 ∧
    RW.reward_tracking_orientation ![0, 0, 1]
        ⟨![0, 0, 0], ![2, 0, 0, 0]⟩ 1 ≤ 1000 :=
  C7_no_validation_amended ![0, 0, 1] ⟨![0, 0, 0], ![2, 0, 0, 0]⟩ 1
    (by norm_num [quatNormSq, vec4_zero, vec4_one, vec4_two, vec4_three])

/-- C9 counterexample: the two conventions do NOT agree on every input.
For `tracking_sigma = -1` the exponent `-error / (σ + EPS)` is positive, the
exponential exceeds `1`, the unit-interval catalog clips it to `1` while the
signed-wide catalog keeps a value above `1`, so the two versions of
`reward_tracking_ang_vel` differ. -/
theorem C9_counterexample :
    RK.reward_tracking_ang_vel ![0, 0, 1] xId xdZero (-1) ≠
      RW.reward_tracking_ang_vel ![0, 0, 1] xId xdZero (-1) := by
  have he : angVelTrackError ![0, 0, 1] xId xdZero = 1 := by
    norm_num [angVelTrackError, rotate, dot3, cross3, quatVec, quat_inv,
      xId, xdZero, vec3_zero, vec3_one, vec3_two, vec4_zero, vec4_one,
      vec4_two, vec4_three]
  have hx : (0 : ℝ) < -(1 : ℝ) / (-1 + EPS) := by norm_num [EPS]
  have ha : 1 < Real.exp (-(1 : ℝ) / (-1 + EPS)) := by
    calc (1 : ℝ) = Real.exp 0 := Real.exp_zero.symm
      _ < _ := Real.exp_lt_exp.mpr hx
  unfold RK.reward_tracking_ang_vel RW.reward_tracking_ang_vel
  rw [he]
  have hK : clip (Real.exp (-(1 : ℝ) / (-1 + EPS))) 0 1 = 1 := by
    unfold clip
    rw [max_eq_left (by linarith), min_eq_right (by linarith)]
  have hW : 1 < clip (Real.exp (-(1 : ℝ) / (-1 + EPS))) (-1000) 1000 := by
    unfold clip
    rw [max_eq_left (by linarith)]
    exact lt_min ha (by norm_num)
  rw [hK]
  intro hEq
  rw [← hEq] at hW
  exact lt_irrefl 1 hW

/-- C9 (amended): for every `tracking_sigma ≥ 0` (in particular every
positive sigma, as the data model requires) the unit-interval and
signed-wide versions of the three exponential-tracking terms agree exactly
(the exponential lies in `(0, 1]`, so neither clip changes it), and the two
versions of `reward_termination` agree on all inputs. -/
theorem C9_convention_equiv (σ : ℝ) (hσ : 0 ≤ σ) :
    ∀ (c : Vec3) (x : Transform) (xd : Motion) (desired : Vec3)
      (done : Bool) (s t : ℤ),
      RK.reward_tracking_lin_vel c x xd σ =
        RW.reward_tracking_lin_vel c x xd σ ∧
      RK.reward_tracking_ang_vel c x xd σ =
        RW.reward_tracking_ang_vel c x xd σ ∧
      RK.reward_tracking_orientation desired x σ =
        RW.reward_tracking_orientation desired x σ ∧
      RK.reward_termination done s t = RW.reward_termination done s t := by
  intro c x xd desired d s t
  have hs : 0 < σ + EPS := by linarith [EPS_pos]
  refine ⟨?_, ?_, ?_, rfl⟩
  · unfold RK.reward_tracking_lin_vel RW.reward_tracking_lin_vel
    rw [clipK_exp_eq _ _ (linVelTrackError_nonneg c x xd) hs,
      clipW_exp_eq _ _ (linVelTrackError_nonneg c x xd) hs]
  · unfold RK.reward_tracking_ang_vel RW.reward_tracking_ang_vel
    rw [clipK_exp_eq _ _ (angVelTrackError_nonneg c x xd) hs,
      clipW_exp_eq _ _ (angVelTrackError_nonneg c x xd) hs]
  · unfold RK.reward_tracking_orientation RW.reward_tracking_orientation
    rw [clipK_exp_eq _ _ (orientationTrackError_nonneg desired x) hs,
      clipW_exp_eq _ _ (orientationTrackError_nonneg desired x) hs]

/-- Witness for C9 (amended) at `σ = 1/4`. -/
theorem C9_convention_equiv_witness :
    RK.reward_tracking_lin_vel ![0, 0, 0] xId xdZero (1/4) =
      RW.reward_tracking_lin_vel ![0, 0, 0] xId xdZero (1/4) :=
  (C9_convention_equiv (1/4) (by norm_num) ![0, 0, 0] xId xdZero
    ![0, 0, 1] true 0 1).1

end
